import Mathlib

/-!
Shallow embedding of the RSO-21/api-gateway core (app/proxy.py and
app/schemas.py) and proofs about the behaviour its specification claims.

Headers are modelled as ordered lists of (name, value) string pairs, the
representation both Starlette and httpx use underneath (`headers.raw` /
`Headers._list`).  HTTP bodies are byte lists; statuses are naturals.
Backend responses are given to each embedded resolver as arguments
(status code, decoded body, header list), since the gateway is stateless
per request and every resolver is a pure function of the inbound request
and the backend's answer.
-/

namespace ApiGateway

/-! ## Header model -/

/-- A single HTTP header occurrence: (name, value). -/
abbrev Header := String × String

/-- ASCII lowercasing of a header name, as Python's `bytes.lower`/`str.lower`
does for the characters that occur in header names. -/
def lowerStr (s : String) : String := String.mk (s.data.map Char.toLower)

/-! ## app/proxy.py : clean_headers -/

/-- The `excluded` set of `clean_headers` in app/proxy.py. -/
def excludedHeaders : List String :=
  ["host", "content-length", "connection", "origin", "referer"]

/-- `clean_headers` (app/proxy.py lines 4-15): keep exactly the header pairs
whose lowercased name is not in the excluded set. -/
def clean_headers (headers : List Header) : List Header :=
  headers.filter (fun kv => decide (lowerStr kv.1 ∉ excludedHeaders))

/-! ## app/proxy.py : forward_request

`forward_request` relays the backend response as
`Response(content=resp.content, status_code=resp.status_code,
headers=dict(resp.headers))`.  `resp.headers` is an httpx `Headers`
multi-dict; applying Python's `dict(...)` to it iterates its `keys()`
(the lowercased names, unique, in first-seen order) and reads each value
with `__getitem__`, which joins every occurrence of that name with
`", "`. -/

/-- All values carried by occurrences of the (lowercased) name `k`,
in order — httpx `Headers.get_list` / `__getitem__` collection step. -/
def valuesFor (hs : List Header) (k : String) : List String :=
  (hs.filter (fun kv => decide (lowerStr kv.1 = k))).map Prod.snd

/-- First-seen-order deduplication of keys, as iterating a Python dict
built from a sequence of keys does.  `seen` accumulates keys already
emitted. -/
def firstSeenKeysAux (seen : List String) : List String → List String
  | [] => []
  | k :: rest =>
    if k ∈ seen then firstSeenKeysAux seen rest
    else k :: firstSeenKeysAux (k :: seen) rest

def firstSeenKeys (l : List String) : List String := firstSeenKeysAux [] l

/-- `dict(resp.headers)` for an httpx response whose raw header list is
`hs`: one entry per distinct lowercased name, in first-seen order, whose
value joins all of that name's occurrences with `", "`. -/
def pyDictHeaders (hs : List Header) : List Header :=
  (firstSeenKeys (hs.map (fun kv => lowerStr kv.1))).map
    (fun k => (k, String.intercalate ", " (valuesFor hs k)))

/-- An HTTP response: status code, body bytes, ordered header occurrences. -/
structure HttpResponse where
  status : Nat
  body : List Nat
  headers : List Header
deriving DecidableEq

/-- The response `forward_request` (app/proxy.py lines 27-31) builds from the
backend response: same `content` and `status_code`, headers passed through
`dict(resp.headers)`. -/
def forward_request_response (backend : HttpResponse) : HttpResponse :=
  { status := backend.status
    body := backend.body
    headers := pyDictHeaders backend.headers }

/-! ## app/schemas.py : tenant propagation (C3)

Every non-auth resolver in app/schemas.py begins with
`tenant_id = request.headers.get("X-Tenant-ID", "public")` and passes
`headers={"X-Tenant-ID": tenant_id}` on its backend call.  The auth-flow
resolvers `login`, `signup`, `logout` and `me` call the auth service with
no `headers=` argument at all (they pass `json=` or `cookies=` only). -/

/-- The inbound HTTP request, reduced to what the resolvers read. -/
structure InboundRequest where
  headers : List Header
deriving DecidableEq

/-- Starlette's case-insensitive `request.headers.get`: value of the first
occurrence whose lowercased name matches, if any. -/
def headerGet (hs : List Header) (k : String) : Option String :=
  (hs.find? (fun kv => decide (lowerStr kv.1 = lowerStr k))).map Prod.snd

/-- `request.headers.get("X-Tenant-ID", "public")`. -/
def tenant_id_of (req : InboundRequest) : String :=
  (headerGet req.headers "X-Tenant-ID").getD "public"

/-- `headers={"X-Tenant-ID": tenant_id}` as passed to httpx. -/
def tenantHeaders (req : InboundRequest) : List Header :=
  [("X-Tenant-ID", tenant_id_of req)]

/-- The aggregation resolvers of app/schemas.py (every `Query` and
`Mutation` field). -/
inductive Resolver where
  | get_orders | get_payments | all_partners | partner_by_id | nearby_partners
  | get_offers | offer_by_id | all_notifications | all_users | user_by_id
  | list_partner_reviews | get_partner_rating | user_order_history | me
  | create_order | create_partner | update_partner | delete_partner
  | create_offer | update_offer | delete_offer | confirm_payment | mark_read
  | update_user | login | signup | logout | create_review
deriving DecidableEq

/-- The `headers=` argument each resolver passes on its backend HTTP
call(s), as a function of the inbound request (transcribed resolver by
resolver from app/schemas.py). -/
def resolverOutboundHeaders (r : Resolver) (req : InboundRequest) : List Header :=
  match r with
  | .get_orders => tenantHeaders req
  | .get_payments => tenantHeaders req
  | .all_partners => tenantHeaders req
  | .partner_by_id => tenantHeaders req
  | .nearby_partners => tenantHeaders req
  | .get_offers => tenantHeaders req
  | .offer_by_id => tenantHeaders req
  | .all_notifications => tenantHeaders req
  | .all_users => tenantHeaders req
  | .user_by_id => tenantHeaders req
  | .list_partner_reviews => tenantHeaders req
  | .get_partner_rating => tenantHeaders req
  | .user_order_history => tenantHeaders req
  | .create_order => tenantHeaders req
  | .create_partner => tenantHeaders req
  | .update_partner => tenantHeaders req
  | .delete_partner => tenantHeaders req
  | .create_offer => tenantHeaders req
  | .update_offer => tenantHeaders req
  | .delete_offer => tenantHeaders req
  | .confirm_payment => tenantHeaders req
  | .mark_read => tenantHeaders req
  | .update_user => tenantHeaders req
  | .create_review => tenantHeaders req
  | .me => []
  | .login => []
  | .signup => []
  | .logout => []

/-- The auth-flow resolvers. -/
def authFlowResolvers : List Resolver := [.login, .signup, .logout, .me]

/-! ## app/schemas.py : query status policy (C4)

Each query resolver is embedded as a function of the backend status code
and the decoded/mapped body (the resolvers are pure in these).  `Except
String` models the resolver raising `Exception`; the string is the
message after the resolver's own `except` wrapper re-raises.  A Python
`return None` from a list-typed resolver is modelled as `.ok none`, while
an actual empty list is `.ok (some [])`; list resolvers that can never
return Python `None` use the plain `List` result type. -/

/-- `Query.get_orders`: non-200 returns `[]`, 200 returns the mapped list. -/
def get_orders_result {α : Type} (status : Nat) (body : List α) :
    Except String (List α) :=
  if status ≠ 200 then .ok [] else .ok body

/-- `Query.get_payments`: non-200 returns `[]`. -/
def get_payments_result {α : Type} (status : Nat) (body : List α) :
    Except String (List α) :=
  if status ≠ 200 then .ok [] else .ok body

/-- `Query.all_partners`: non-200 returns `[]`. -/
def all_partners_result {α : Type} (status : Nat) (body : List α) :
    Except String (List α) :=
  if status ≠ 200 then .ok [] else .ok body

/-- `Query.get_offers`: non-200 returns `[]`. -/
def get_offers_result {α : Type} (status : Nat) (body : List α) :
    Except String (List α) :=
  if status ≠ 200 then .ok [] else .ok body

/-- `Query.all_notifications`: non-200 returns `[]`. -/
def all_notifications_result {α : Type} (status : Nat) (body : List α) :
    Except String (List α) :=
  if status ≠ 200 then .ok [] else .ok body

/-- `Query.all_users`: non-200 returns `[]`. -/
def all_users_result {α : Type} (status : Nat) (body : List α) :
    Except String (List α) :=
  if status ≠ 200 then .ok [] else .ok body

/-- `Query.partner_by_id`: 404 returns `None`; any other non-200 raises
(re-wrapped by the resolver's `except` clause); 200 returns the mapped
record. -/
def partner_by_id_result {α : Type} (partner_id : String) (status : Nat)
    (body : α) : Except String (Option α) :=
  if status = 404 then .ok none
  else if status ≠ 200 then
    .error ("Error fetching partner " ++ partner_id ++ ": Partner service returned "
      ++ toString status)
  else .ok (some body)

/-- `Query.offer_by_id`: 404 returns `None`; other non-200 raises. -/
def offer_by_id_result {α : Type} (offer_id : String) (status : Nat)
    (body : α) : Except String (Option α) :=
  if status = 404 then .ok none
  else if status ≠ 200 then
    .error ("Error fetching offer " ++ offer_id ++ ": Offer service returned "
      ++ toString status)
  else .ok (some body)

/-- `Query.user_by_id`: 404 returns `None`; other non-200 raises (the
source's message text says "offer" for the user service). -/
def user_by_id_result {α : Type} (user_id : String) (status : Nat)
    (body : α) : Except String (Option α) :=
  if status = 404 then .ok none
  else if status ≠ 200 then
    .error ("Error fetching offer " ++ user_id ++ ": User service returned "
      ++ toString status)
  else .ok (some body)

/-- `Query.nearby_partners`: 404 returns Python `None` (despite the list
return type); any other non-200 raises; 200 returns the mapped list.
`latlng` stands for the interpolated `(lat, lng)` text. -/
def nearby_partners_result {α : Type} (latlng : String) (status : Nat)
    (body : List α) : Except String (Option (List α)) :=
  if status = 404 then .ok none
  else if status ≠ 200 then
    .error ("Error fetching nearby partners at " ++ latlng
      ++ ": Partner service returned " ++ toString status)
  else .ok (some body)

/-- `Query.list_partner_reviews`: 404 returns Python `None`; any other
non-200 returns `[]`; 200 returns the mapped list. -/
def list_partner_reviews_result {α : Type} (status : Nat)
    (body : List α) : Except String (Option (List α)) :=
  if status = 404 then .ok none
  else if status ≠ 200 then .ok (some [])
  else .ok (some body)

/-- `Query.user_order_history`: 404 returns `[]`; any other non-200
raises; 200 returns the mapped list. -/
def user_order_history_result {α : Type} (user_id : String) (status : Nat)
    (body : List α) : Except String (List α) :=
  if status = 404 then .ok []
  else if status ≠ 200 then
    .error ("Error fetching orders for user " ++ user_id
      ++ ": User service returned " ++ toString status)
  else .ok body

/-! ## app/schemas.py : update-style mutations (C5)

`update_partner`, `update_offer` and `update_user` all run
`update_data = strawberry.asdict(input)` followed by
`update_data = {k: v for k, v in update_data.items() if v is not None}`
and pass the filtered dict as the `json=` body.  The inputs'
declared fields (and their declaration order) are transcribed from
`PartnerUpdateInput`, `OfferUpdateInput` and `UserUpdateInput`.  JSON
scalar values are modelled by `JVal`; float literals are carried as
their numeric text. -/

/-- A JSON scalar value as found in an update body. -/
inductive JVal where
  | s (v : String)
  | b (v : Bool)
  | num (lit : String)
  | inst (iso : String)
deriving DecidableEq

/-- `PartnerUpdateInput` (app/schemas.py lines 77-85): all fields optional,
defaulting to `None`. -/
structure PartnerUpdateInput where
  name : Option String
  address : Option String
  city : Option String
  active : Option Bool
  tenant_id : Option String
  latitude : Option String
  longitude : Option String
deriving DecidableEq

/-- `OfferUpdateInput` (app/schemas.py lines 109-117): every field optional
except `expiry_date`, which is a required `datetime`. -/
structure OfferUpdateInput where
  partner_id : Option String
  title : Option String
  description : Option String
  price_original : Option String
  price_discounted : Option String
  expiry_date : String
  tenant_id : Option String
deriving DecidableEq

/-- `UserUpdateInput` (app/schemas.py lines 143-151): all fields optional. -/
structure UserUpdateInput where
  email : Option String
  name : Option String
  surname : Option String
  address : Option String
  longitude : Option String
  latitude : Option String
  partner_id : Option String
deriving DecidableEq

/-- `strawberry.asdict` on a `PartnerUpdateInput`: the field dict in
declaration order; absent fields appear as `none`. -/
def PartnerUpdateInput.asdict (i : PartnerUpdateInput) :
    List (String × Option JVal) :=
  [("name", i.name.map JVal.s), ("address", i.address.map JVal.s),
   ("city", i.city.map JVal.s), ("active", i.active.map JVal.b),
   ("tenant_id", i.tenant_id.map JVal.s), ("latitude", i.latitude.map JVal.num),
   ("longitude", i.longitude.map JVal.num)]

/-- `strawberry.asdict` on an `OfferUpdateInput`; the required
`expiry_date` is always present. -/
def OfferUpdateInput.asdict (i : OfferUpdateInput) :
    List (String × Option JVal) :=
  [("partner_id", i.partner_id.map JVal.s), ("title", i.title.map JVal.s),
   ("description", i.description.map JVal.s),
   ("price_original", i.price_original.map JVal.num),
   ("price_discounted", i.price_discounted.map JVal.num),
   ("expiry_date", some (JVal.inst i.expiry_date)),
   ("tenant_id", i.tenant_id.map JVal.s)]

/-- `strawberry.asdict` on a `UserUpdateInput`. -/
def UserUpdateInput.asdict (i : UserUpdateInput) :
    List (String × Option JVal) :=
  [("email", i.email.map JVal.s), ("name", i.name.map JVal.s),
   ("surname", i.surname.map JVal.s), ("address", i.address.map JVal.s),
   ("longitude", i.longitude.map JVal.num), ("latitude", i.latitude.map JVal.num),
   ("partner_id", i.partner_id.map JVal.s)]

/-- `{k: v for k, v in d.items() if v is not None}`. -/
def dropAbsent (l : List (String × Option JVal)) : List (String × JVal) :=
  l.filterMap (fun kv => kv.2.map (fun v => (kv.1, v)))

/-- The `json=` body of `Mutation.update_partner`. -/
def update_partner_body (i : PartnerUpdateInput) : List (String × JVal) :=
  dropAbsent i.asdict

/-- The `json=` body of `Mutation.update_offer`. -/
def update_offer_body (i : OfferUpdateInput) : List (String × JVal) :=
  dropAbsent i.asdict

/-- The `json=` body of `Mutation.update_user`. -/
def update_user_body (i : UserUpdateInput) : List (String × JVal) :=
  dropAbsent i.asdict

/-! ## app/schemas.py : JSON-to-record mapping of time and money (C6, C7)

A backend time field is either a JSON string or (per the spec's "already a
native instant" case) a datetime object; the instant type is modelled as a
token carrying its normalized ISO text, which is all the mapping code
inspects.  A money field's wire value is carried as its decimal literal
(sign, integer digits, fraction digits).  `json.loads` turns a JSON string
into that text unchanged, a JSON integer literal into an exact Python
`int`, and a fractional/exponent number literal into a binary64 float —
modelled below by genuine round-to-nearest-ties-even rounding over exact
integer arithmetic (in the normal finite range money literals occupy;
binary64 subnormal underflow and overflow to infinity are outside that
range and outside this model).  Python's `str()` of such a float is its
shortest decimal that decodes back to the same float (up to binary64's 17
significant digits; a tie at an exact decimal midpoint resolves to the
even mantissa).  `Decimal` is (sign, coefficient, scale) as in CPython's
`decimal` module. -/

/-- A backend time field value. -/
inductive TimeVal where
  | text (s : String)
  | inst (iso : String)
deriving DecidableEq

/-- Python's `s.replace("Z", "+00:00")`: every `Z` replaced. -/
def replaceZ (s : String) : String :=
  String.mk ((s.data.map (fun c => if c = 'Z' then "+00:00".data else [c])).flatten)

/-- A decimal literal, the textual transport of a money value: sign,
integer-part digits and fraction-part digits, both least significant
first. -/
structure DecLit where
  neg : Bool
  intDigits : List Nat
  fracDigits : List Nat
deriving DecidableEq

/-- The rational a decimal literal denotes. -/
def DecLit.value (t : DecLit) : ℚ :=
  (cond t.neg (-1) 1) * ((Nat.ofDigits 10 (t.fracDigits ++ t.intDigits) : ℕ) : ℚ)
    / 10 ^ t.fracDigits.length

/-- A CPython `Decimal`: sign, coefficient, and (non-negative) scale, the
number being `± coeff / 10 ^ scale`. -/
structure PyDecimal where
  neg : Bool
  coeff : Nat
  scale : Nat
deriving DecidableEq

/-- The rational a `Decimal` denotes. -/
def PyDecimal.value (d : PyDecimal) : ℚ :=
  (cond d.neg (-1) 1) * (d.coeff : ℚ) / 10 ^ d.scale

/-- `Decimal(text)`: the coefficient is all the digits, the scale is the
number of fraction digits. -/
def pyDecimalOfLit (t : DecLit) : PyDecimal :=
  { neg := t.neg
    coeff := Nat.ofDigits 10 (t.fracDigits ++ t.intDigits)
    scale := t.fracDigits.length }

/-- Base-10 digits of a natural number, least significant first; the
first argument is fuel, always called with `n` itself (kernel-computable
counterpart of `Nat.digits 10`, see `natDigits10_eq`). -/
def natDigitsAux : Nat → Nat → List Nat
  | 0, _ => []
  | fuel + 1, n => if n = 0 then [] else n % 10 :: natDigitsAux fuel (n / 10)

def natDigits10 (n : Nat) : List Nat := natDigitsAux n n

/-- `str(d)` for a `Decimal` with non-negative scale: the decimal point is
inserted `scale` digits from the right, padding with zeros when the
coefficient has fewer digits. -/
def litOfPyDecimal (d : PyDecimal) : DecLit :=
  { neg := d.neg
    intDigits := (natDigits10 d.coeff).drop d.scale
    fracDigits := (natDigits10 d.coeff ++ List.replicate d.scale 0).take d.scale }

/-- Floor of the base-2 logarithm of a positive natural (fuel-based,
kernel-computable). -/
def natLog2Aux : Nat → Nat → Nat
  | 0, _ => 0
  | fuel + 1, n => if n < 2 then 0 else natLog2Aux fuel (n / 2) + 1

def natLog2 (n : Nat) : Nat := natLog2Aux n n

/-- Floor of the base-10 logarithm of a positive natural. -/
def natLog10Aux : Nat → Nat → Nat
  | 0, _ => 0
  | fuel + 1, n => if n < 10 then 0 else natLog10Aux fuel (n / 10) + 1

def natLog10 (n : Nat) : Nat := natLog10Aux n n

/-- Is the positive fraction `n / d` less than `2 ^ k`? -/
def ltPow2 (n d : Nat) (k : Int) : Bool :=
  if 0 ≤ k then n < d * 2 ^ k.toNat else n * 2 ^ (-k).toNat < d

/-- Floor of the base-2 logarithm of the positive fraction `n / d`. -/
def qlog2 (n d : Nat) : Int :=
  let k : Int := (natLog2 n : Int) - (natLog2 d : Int)
  if ltPow2 n d k then k - 1 else k

/-- Is the positive fraction `n / d` less than `10 ^ k`? -/
def ltPow10 (n d : Nat) (k : Int) : Bool :=
  if 0 ≤ k then n < d * 10 ^ k.toNat else n * 10 ^ (-k).toNat < d

/-- Floor of the base-10 logarithm of the positive fraction `n / d`. -/
def qlog10 (n d : Nat) : Int :=
  let k : Int := (natLog10 n : Int) - (natLog10 d : Int)
  if ltPow10 n d k then k - 1 else k

/-- Round the positive fraction `n / d` to the nearest natural, ties to
even (the IEEE-754 default rounding used by binary64). -/
def roundHalfEvenPos (n d : Nat) : Nat :=
  let f := n / d
  let r2 := 2 * (n % d)
  if r2 < d then f
  else if d < r2 then f + 1
  else if f % 2 = 0 then f else f + 1

/-- The fraction `(n / d) / 2 ^ e` as a pair numerator/denominator. -/
def shift2 (n d : Nat) (e : Int) : Nat × Nat :=
  if 0 ≤ e then (n, d * 2 ^ e.toNat) else (n * 2 ^ (-e).toNat, d)

/-- The fraction `(n / d) / 10 ^ e` as a pair numerator/denominator. -/
def shift10 (n d : Nat) (e : Int) : Nat × Nat :=
  if 0 ≤ e then (n, d * 10 ^ e.toNat) else (n * 10 ^ (-e).toNat, d)

/-- Binary64 rounding of the positive fraction `n / d` (normal finite
range): the mantissa `m` (with `2 ^ 52 ≤ m` unless the value is 0) and
exponent `e` of the nearest-ties-even double `m * 2 ^ e`. -/
def roundB64Pos (n d : Nat) : Nat × Int :=
  if n = 0 then (0, 0)
  else
    let e : Int := qlog2 n d - 52
    let s := shift2 n d e
    (roundHalfEvenPos s.1 s.2, e)

/-- Value equality of two binary floats given as mantissa/exponent. -/
def dblEq (x y : Nat × Int) : Bool :=
  if x.2 ≤ y.2 then x.1 == y.1 * 2 ^ (y.2 - x.2).toNat
  else x.1 * 2 ^ (x.2 - y.2).toNat == y.1

/-- The positive double `m * 2 ^ e` as a fraction pair. -/
def dblFrac (m : Nat) (e : Int) : Nat × Nat :=
  if 0 ≤ e then (m * 2 ^ e.toNat, 1) else (m, 2 ^ (-e).toNat)

/-- Round the positive fraction `n / d` to `p` significant decimal
digits: decimal mantissa and power of ten. -/
def roundSigPos (p : Nat) (n d : Nat) : Nat × Int :=
  let exp10 : Int := qlog10 n d - p + 1
  let s := shift10 n d exp10
  (roundHalfEvenPos s.1 s.2, exp10)

/-- Does the decimal `c * 10 ^ exp10` decode (binary64-round) back to the
double `m * 2 ^ e`? -/
def reprRoundTrips (m : Nat) (e : Int) (c : Nat) (exp10 : Int) : Bool :=
  let f := shift10 c 1 (-exp10)
  dblEq (roundB64Pos f.1 f.2) (m, e)

/-- `repr()` of the positive double `m * 2 ^ e`: the shortest decimal (at
most 17 significant digits) whose binary64 rounding is the double again,
as decimal mantissa and power of ten. -/
def pyReprSci (m : Nat) (e : Int) : Nat × Int :=
  let f := dblFrac m e
  match (List.range 17).find? (fun i =>
      reprRoundTrips m e (roundSigPos (i + 1) f.1 f.2).1
        (roundSigPos (i + 1) f.1 f.2).2) with
  | some i => roundSigPos (i + 1) f.1 f.2
  | none => roundSigPos 17 f.1 f.2

/-- The decimal literal with value `± c * 10 ^ exp10`. -/
def decLitOfSci (neg : Bool) (c : Nat) (exp10 : Int) : DecLit :=
  if 0 ≤ exp10 then litOfPyDecimal ⟨neg, c * 10 ^ exp10.toNat, 0⟩
  else litOfPyDecimal ⟨neg, c, (-exp10).toNat⟩

/-- Python's `str()` of a float given as sign/mantissa/exponent: the sign
and the shortest round-tripping decimal of its magnitude. -/
def pyStrFloat (neg : Bool) (m : Nat) (e : Int) : DecLit :=
  if m = 0 then ⟨false, [0], [0]⟩
  else decLitOfSci neg (pyReprSci m e).1 (pyReprSci m e).2

/-- Numerator of a decimal literal's magnitude. -/
def litNum (t : DecLit) : Nat := Nat.ofDigits 10 (t.fracDigits ++ t.intDigits)

/-- Denominator of a decimal literal's magnitude. -/
def litDen (t : DecLit) : Nat := 10 ^ t.fracDigits.length

/-- `json.loads` of a fractional/exponent JSON number literal: the
literal's value rounded to the nearest binary64 double, as
sign/mantissa/exponent. -/
def floatOfLit (t : DecLit) : Bool × Nat × Int :=
  (t.neg, roundB64Pos (litNum t) (litDen t))

/-- A JSON `amount` value as `json.loads` hands it to `map_payment_data`:
a JSON string (kept as text), a JSON integer literal (an exact Python
`int`), or a fractional/exponent number literal (a binary64 float; the
literal records the written digits, an exponent form being carried as the
equivalent plain literal). -/
inductive AmountVal where
  | s (lit : DecLit)
  | intNum (neg : Bool) (n : Nat)
  | num (lit : DecLit)
deriving DecidableEq

/-- `str(p["amount"])`: the textual representation handed to `Decimal` —
the string itself, the exact digits of an `int`, or the float's shortest
round-trip repr. -/
def pyStrAmount : AmountVal → DecLit
  | .s t => t
  | .intNum neg n => ⟨neg, natDigits10 n, []⟩
  | .num t =>
    pyStrFloat (floatOfLit t).1 (floatOfLit t).2.1 (floatOfLit t).2.2

/-- Backend payment JSON, reduced to the fields `map_payment_data`
transforms (the remaining fields pass through `PaymentType(**p)`
untouched). -/
structure PaymentJson where
  amount : AmountVal
  created_at : TimeVal
  updated_at : TimeVal
deriving DecidableEq

/-- The corresponding fields of the `PaymentType` record built by
`map_payment_data`. -/
structure PaymentRecord where
  amount : PyDecimal
  created_at : TimeVal
  updated_at : TimeVal
deriving DecidableEq

/-- `map_payment_data` (app/schemas.py lines 241-252): both time fields are
parsed (after `Z` → `+00:00`) when they are strings and left alone
otherwise; `amount` becomes `Decimal(str(p["amount"]))`. -/
def map_payment_data (p : PaymentJson) : PaymentRecord :=
  { created_at :=
      match p.created_at with
      | .text s => .inst (replaceZ s)
      | v => v
    updated_at :=
      match p.updated_at with
      | .text s => .inst (replaceZ s)
      | v => v
    amount := pyDecimalOfLit (pyStrAmount p.amount) }

/-- Backend order JSON, reduced to its two time fields. -/
structure OrderJson where
  created_at : TimeVal
  updated_at : TimeVal
deriving DecidableEq

/-- The time fields of the `OrderType` record built by `map_order_data`. -/
structure OrderRecord where
  created_at : TimeVal
  updated_at : TimeVal
deriving DecidableEq

/-- `map_order_data` (app/schemas.py lines 254-262): only `created_at` is
normalized; `updated_at` is passed to `OrderType(**o)` untouched. -/
def map_order_data (o : OrderJson) : OrderRecord :=
  { created_at :=
      match o.created_at with
      | .text s => .inst (replaceZ s)
      | v => v
    updated_at := o.updated_at }

/-- Backend offer JSON, reduced to its time field. -/
structure OfferJson where
  expiry_date : TimeVal
deriving DecidableEq

/-- The time field of the `OfferType` record built by `map_offer_data`. -/
structure OfferRecord where
  expiry_date : TimeVal
deriving DecidableEq

/-- `map_offer_data` (app/schemas.py lines 324-338): the guard is
`if not isinstance(data.get("expiry_date"), str)`, so a string value is
left unparsed, while a datetime value is fed to
`data["expiry_date"].replace("Z", "+00:00")`, which raises `TypeError`
(`datetime.replace` takes field keywords, not strings). -/
def map_offer_data (d : OfferJson) : Except String OfferRecord :=
  match d.expiry_date with
  | .text s => .ok { expiry_date := .text s }
  | .inst _ => .error "TypeError: replace() takes no positional string arguments"

/-- The `"amount": str(input.amount)` field of the `json=` body sent by
`Mutation.create_order` (app/schemas.py line 785). -/
def create_order_body_amount (amount : PyDecimal) : DecLit :=
  litOfPyDecimal amount

/-! ## app/schemas.py : auth-flow cookie relay (C8)

`login`, `signup` and `logout` run
`auth_cookies = auth_response.headers.get_list("set-cookie")` followed by
`for cookie_string in auth_cookies:
   response.headers.append("set-cookie", cookie_string)`.
The gateway `Response`'s mutable header list is threaded explicitly. -/

/-- httpx `Headers.get_list(k)`: the values of every occurrence of the
(case-insensitively matched) name, in order. -/
def get_list (hs : List Header) (k : String) : List String :=
  (hs.filter (fun kv => decide (lowerStr kv.1 = lowerStr k))).map Prod.snd

/-- The relay loop: one `response.headers.append("set-cookie", c)` per
backend cookie, in order. -/
def appendSetCookies (respHeaders : List Header) (cookies : List String) :
    List Header :=
  respHeaders ++ cookies.map (fun c => ("set-cookie", c))

/-- A backend auth-service response: status, headers, and the `error`
field of its JSON body if any (read by `signup` on failure). -/
structure AuthResponse where
  status : Nat
  headers : List Header
  bodyError : Option String
deriving DecidableEq

/-- `Mutation.login` (app/schemas.py lines 987-1007): non-200 raises
`"Authentication failed"`; on 200 every backend `set-cookie` is appended
to the gateway response headers and `status="ok"` is returned. -/
def login_resolver (respHeaders : List Header) (auth : AuthResponse) :
    Except String (List Header × String) :=
  if auth.status ≠ 200 then .error "Authentication failed"
  else .ok (appendSetCookies respHeaders (get_list auth.headers "set-cookie"), "ok")

/-- `Mutation.signup` (app/schemas.py lines 1009-1040): non-200 raises the
body's `error` message (default `"Signup failed"`), re-wrapped by the
resolver's `except` clause; on 200 the cookies are relayed. -/
def signup_resolver (respHeaders : List Header) (auth : AuthResponse) :
    Except String (List Header × String) :=
  if auth.status ≠ 200 then
    .error ("Signup error: " ++ auth.bodyError.getD "Signup failed")
  else .ok (appendSetCookies respHeaders (get_list auth.headers "set-cookie"), "ok")

/-- `Mutation.logout` (app/schemas.py lines 1043-1055): no status check;
the cookies are always relayed and `status="logged_out"` returned. -/
def logout_resolver (respHeaders : List Header) (auth : AuthResponse) :
    List Header × String :=
  (appendSetCookies respHeaders (get_list auth.headers "set-cookie"), "logged_out")

/-- The `set-cookie` values (in order) present on a header list. -/
def setCookieValues (hs : List Header) : List String :=
  (hs.filter (fun kv => decide (lowerStr kv.1 = "set-cookie"))).map Prod.snd

/-! ## app/schemas.py : mutation error mapping (C9, C10) -/

/-- `Mutation.mark_read` (app/schemas.py lines 946-958): calls the
notification service; non-200 raises with the message text
`"Payment confirmation failed: "` followed by the response body. -/
def mark_read_result {α : Type} (status : Nat) (text : String) (body : α) :
    Except String α :=
  if status ≠ 200 then .error ("Payment confirmation failed: " ++ text)
  else .ok body

/-- `Mutation.create_review` (app/schemas.py lines 1057-1081): calls the
review service; a status outside {200, 201} raises with the message text
`"Partner creation failed: "` followed by the response body. -/
def create_review_result {α : Type} (status : Nat) (text : String) (body : α) :
    Except String α :=
  if status ≠ 200 ∧ status ≠ 201 then
    .error ("Partner creation failed: " ++ text)
  else .ok body

/-- `Mutation.delete_partner` (app/schemas.py lines 847-859): any status
other than 204 raises with the backend body text; 204 returns `True`. -/
def delete_partner_result (status : Nat) (text : String) : Except String Bool :=
  if status ≠ 204 then
    .error ("Partner not successfully deleted: " ++ text)
  else .ok true

/-- `Mutation.delete_offer` (app/schemas.py lines 918-930): any status
other than 204 raises with the backend body text; 204 returns `True`. -/
def delete_offer_result (status : Nat) (text : String) : Except String Bool :=
  if status ≠ 204 then
    .error ("Offer not successfully deleted: " ++ text)
  else .ok true

/-! ## Theorems -/

/-- C2: the Proxy Forwarder's outbound header list contains no occurrence of
`host`, `content-length`, `connection`, `origin` or `referer` (in any letter
casing), keeps every other header occurrence with its exact multiplicity, and
preserves the inbound order (the result is a sublist of the input). -/
theorem clean_headers_strips_and_preserves (hs : List Header) (k v : String) :
    (lowerStr k ∈ excludedHeaders → (k, v) ∉ clean_headers hs) ∧
    (lowerStr k ∉ excludedHeaders →
      (clean_headers hs).count (k, v) = hs.count (k, v)) ∧
    List.Sublist (clean_headers hs) hs := by
  refine ⟨?_, ?_, List.filter_sublist hs⟩
  · intro hk hmem
    have := List.of_mem_filter hmem
    simp only [decide_eq_true_eq] at this
    exact this hk
  · intro hk
    apply List.count_filter
    simp [hk]

/-- Witness for C2 on a concrete header list: `Host` and `ORIGIN` are
stripped regardless of casing, while a duplicated custom header keeps both
occurrences. -/
theorem clean_headers_strips_and_preserves_witness :
    (("Host", "x") ∉ clean_headers
        [("Host", "x"), ("X-Custom", "a"), ("ORIGIN", "o"), ("X-Custom", "a")]) ∧
    ((clean_headers
        [("Host", "x"), ("X-Custom", "a"), ("ORIGIN", "o"), ("X-Custom", "a")]).count
        ("X-Custom", "a") = 2) := by
  have h1 := clean_headers_strips_and_preserves
    [("Host", "x"), ("X-Custom", "a"), ("ORIGIN", "o"), ("X-Custom", "a")] "Host" "x"
  have h2 := clean_headers_strips_and_preserves
    [("Host", "x"), ("X-Custom", "a"), ("ORIGIN", "o"), ("X-Custom", "a")] "X-Custom" "a"
  refine ⟨h1.1 (by decide), ?_⟩
  rw [h2.2.1 (by decide)]
  decide

theorem mem_firstSeenKeysAux (l : List String) :
    ∀ (seen : List String) (k : String),
      k ∈ firstSeenKeysAux seen l ↔ (k ∈ l ∧ k ∉ seen) := by
  induction l with
  | nil => intro seen k; simp [firstSeenKeysAux]
  | cons a rest ih =>
    intro seen k
    by_cases ha : a ∈ seen
    · rw [firstSeenKeysAux, if_pos ha, ih]
      constructor
      · rintro ⟨hk, hks⟩; exact ⟨List.mem_cons_of_mem _ hk, hks⟩
      · rintro ⟨hk, hks⟩
        rcases List.mem_cons.1 hk with rfl | hk
        · exact absurd ha hks
        · exact ⟨hk, hks⟩
    · rw [firstSeenKeysAux, if_neg ha]
      constructor
      · intro hmem
        rcases List.mem_cons.1 hmem with rfl | hmem
        · exact ⟨List.mem_cons_self _ _, ha⟩
        · have := (ih _ _).1 hmem
          refine ⟨List.mem_cons_of_mem _ this.1, fun hks => this.2 ?_⟩
          exact List.mem_cons_of_mem _ hks
      · rintro ⟨hk, hks⟩
        rcases List.mem_cons.1 hk with rfl | hk
        · exact List.mem_cons_self _ _
        · by_cases hka : k = a
          · subst hka; exact List.mem_cons_self _ _
          · refine List.mem_cons_of_mem _ ((ih _ _).2 ⟨hk, ?_⟩)
            intro hmem
            rcases List.mem_cons.1 hmem with h | h
            · exact hka h
            · exact hks h

theorem nodup_firstSeenKeysAux (l : List String) :
    ∀ seen : List String, (firstSeenKeysAux seen l).Nodup := by
  induction l with
  | nil => intro seen; simp [firstSeenKeysAux]
  | cons a rest ih =>
    intro seen
    by_cases ha : a ∈ seen
    · rw [firstSeenKeysAux, if_pos ha]; exact ih seen
    · rw [firstSeenKeysAux, if_neg ha]
      refine List.nodup_cons.2 ⟨fun hmem => ?_, ih (a :: seen)⟩
      exact ((mem_firstSeenKeysAux rest _ a).1 hmem).2 (List.mem_cons_self _ _)

/-- C1 counterexample: a backend response with two `set-cookie` header
occurrences is relayed by `forward_request` with a single `set-cookie`
occurrence whose value is the comma-join of the two — the occurrence count
is not preserved. -/
theorem forward_request_multiplicity_counterexample :
    ((HttpResponse.mk 200 [] [("set-cookie", "a=1"), ("set-cookie", "b=2")]).headers.filter
        (fun kv => decide (lowerStr kv.1 = "set-cookie"))).length = 2 ∧
    (forward_request_response
        (HttpResponse.mk 200 [] [("set-cookie", "a=1"), ("set-cookie", "b=2")])).headers
      = [("set-cookie", "a=1, b=2")] := by
  constructor
  · rfl
  · rfl

/-- C1 amended: `forward_request` relays the backend status code and body
bytes unchanged, and relays the headers through `dict(resp.headers)`: the
relayed list carries each distinct lowercased backend header name exactly
once, and that entry's value is the `", "`-join of all the backend values
for that name, so duplicate occurrences (e.g. multiple `Set-Cookie`) are
coalesced into one occurrence rather than preserved. -/
theorem forward_request_relay_amended (backend : HttpResponse) :
    (forward_request_response backend).status = backend.status ∧
    (forward_request_response backend).body = backend.body ∧
    ((forward_request_response backend).headers.map Prod.fst).Nodup ∧
    (∀ k : String,
      k ∈ (forward_request_response backend).headers.map Prod.fst ↔
      k ∈ backend.headers.map (fun kv => lowerStr kv.1)) ∧
    (∀ k v, (k, v) ∈ (forward_request_response backend).headers →
      v = String.intercalate ", " (valuesFor backend.headers k)) := by
  refine ⟨rfl, rfl, ?_, ?_, ?_⟩
  · show ((pyDictHeaders backend.headers).map Prod.fst).Nodup
    rw [pyDictHeaders, List.map_map]
    have : (Prod.fst ∘ fun k : String =>
        (k, String.intercalate ", " (valuesFor backend.headers k))) = id := rfl
    rw [this, List.map_id]
    exact nodup_firstSeenKeysAux _ _
  · intro k
    show k ∈ (pyDictHeaders backend.headers).map Prod.fst ↔ _
    rw [pyDictHeaders, List.map_map]
    have : (Prod.fst ∘ fun k : String =>
        (k, String.intercalate ", " (valuesFor backend.headers k))) = id := rfl
    rw [this, List.map_id, firstSeenKeys, mem_firstSeenKeysAux]
    simp
  · intro k v hmem
    rcases List.mem_map.1 hmem with ⟨k', _, heq⟩
    have hk : k' = k := congrArg Prod.fst heq
    have hv := congrArg Prod.snd heq
    simp only at hv
    rw [← hv, hk]

/-- Witness for C1's amended theorem at a concrete backend response. -/
theorem forward_request_relay_amended_witness :
    ((forward_request_response
        (HttpResponse.mk 201 [7] [("X-A", "1"), ("x-a", "2"), ("Via", "p")])).headers.map
        Prod.fst).Nodup ∧
    ("x-a" ∈ (forward_request_response
        (HttpResponse.mk 201 [7] [("X-A", "1"), ("x-a", "2"), ("Via", "p")])).headers.map
        Prod.fst) ∧
    (("x-a", "1, 2") ∈ (forward_request_response
        (HttpResponse.mk 201 [7] [("X-A", "1"), ("x-a", "2"), ("Via", "p")])).headers →
      "1, 2" = String.intercalate ", "
        (valuesFor [("X-A", "1"), ("x-a", "2"), ("Via", "p")] "x-a")) := by
  have h := forward_request_relay_amended
    (HttpResponse.mk 201 [7] [("X-A", "1"), ("x-a", "2"), ("Via", "p")])
  refine ⟨h.2.2.1, ?_, fun hm => h.2.2.2.2 "x-a" "1, 2" hm⟩
  rw [h.2.2.2.1 "x-a"]
  decide

/-- C3 counterexample: the inbound request carries `X-Tenant-ID: t1`, yet
the backend call issued by the `login` resolver carries no `X-Tenant-ID`
header at all (and likewise `signup`, `logout`, `me`). -/
theorem login_missing_tenant_header_counterexample :
    headerGet (InboundRequest.mk [("X-Tenant-ID", "t1")]).headers "X-Tenant-ID"
      = some "t1" ∧
    headerGet (resolverOutboundHeaders .login
      (InboundRequest.mk [("X-Tenant-ID", "t1")])) "X-Tenant-ID" = none ∧
    headerGet (resolverOutboundHeaders .signup
      (InboundRequest.mk [("X-Tenant-ID", "t1")])) "X-Tenant-ID" = none ∧
    headerGet (resolverOutboundHeaders .logout
      (InboundRequest.mk [("X-Tenant-ID", "t1")])) "X-Tenant-ID" = none ∧
    headerGet (resolverOutboundHeaders .me
      (InboundRequest.mk [("X-Tenant-ID", "t1")])) "X-Tenant-ID" = none := by
  refine ⟨?_, rfl, rfl, rfl, rfl⟩
  rfl

/-- C3 amended: every aggregation resolver except the auth-flow ones
(`login`, `signup`, `logout`, `me`) sends an `X-Tenant-ID` outbound header
equal to the inbound `X-Tenant-ID` value, defaulting to `"public"` when the
inbound header is absent; the auth-flow resolvers send no headers (hence no
tenant header) on their backend calls. -/
theorem resolver_tenant_header_amended (r : Resolver) (req : InboundRequest) :
    (r ∉ authFlowResolvers →
      headerGet (resolverOutboundHeaders r req) "X-Tenant-ID"
        = some (tenant_id_of req)) ∧
    (r ∈ authFlowResolvers → resolverOutboundHeaders r req = []) ∧
    (headerGet req.headers "X-Tenant-ID" = none → tenant_id_of req = "public") ∧
    (∀ v, headerGet req.headers "X-Tenant-ID" = some v → tenant_id_of req = v) := by
  refine ⟨?_, ?_, ?_, ?_⟩
  · intro hr
    cases r <;>
      first
        | exact absurd (by decide) hr
        | rfl
  · intro hr
    revert hr
    cases r <;> intro hr <;>
      first
        | rfl
        | exact absurd hr (by decide)
  · intro h; rw [tenant_id_of, h]; rfl
  · intro v h; rw [tenant_id_of, h]; rfl

/-- Witness for C3's amended theorem: `get_orders` forwards the concrete
inbound tenant, and `logout` sends no headers. -/
theorem resolver_tenant_header_amended_witness :
    headerGet (resolverOutboundHeaders .get_orders
      (InboundRequest.mk [("x-tenant-id", "acme")])) "X-Tenant-ID"
      = some (tenant_id_of (InboundRequest.mk [("x-tenant-id", "acme")])) ∧
    resolverOutboundHeaders .logout (InboundRequest.mk [("x-tenant-id", "acme")]) = [] ∧
    tenant_id_of (InboundRequest.mk [("X-Other", "z")]) = "public" := by
  have h1 := resolver_tenant_header_amended .get_orders
    (InboundRequest.mk [("x-tenant-id", "acme")])
  have h2 := resolver_tenant_header_amended .logout
    (InboundRequest.mk [("x-tenant-id", "acme")])
  have h3 := resolver_tenant_header_amended .get_orders
    (InboundRequest.mk [("X-Other", "z")])
  exact ⟨h1.1 (by decide), h2.2.1 (by decide), h3.2.2.1 (by decide)⟩

/-- C4 counterexample: three list-returning query fields do not map every
non-200 status to the empty list — `nearby_partners` raises on 500 and
returns Python `None` on 404, `user_order_history` raises on 500, and
`list_partner_reviews` returns Python `None` (not `[]`) on 404. -/
theorem list_status_policy_counterexample :
    nearby_partners_result (α := Unit) "(1.0, 2.0)" 500 []
      = .error "Error fetching nearby partners at (1.0, 2.0): Partner service returned 500" ∧
    nearby_partners_result (α := Unit) "(1.0, 2.0)" 404 [] = .ok none ∧
    user_order_history_result (α := Unit) "u1" 500 []
      = .error "Error fetching orders for user u1: User service returned 500" ∧
    list_partner_reviews_result (α := Unit) 404 [] = .ok none := by
  refine ⟨rfl, rfl, rfl, rfl⟩

/-- C4 amended: the 404-to-`None` rule does hold for the three single-entity
lookups, and the non-200-to-`[]` rule holds for `get_orders`, `get_payments`,
`all_partners`, `get_offers`, `all_notifications` and `all_users`; but
`nearby_partners` returns `None` on 404 and raises on any other non-200,
`list_partner_reviews` returns `None` on 404 and `[]` on other non-200, and
`user_order_history` returns `[]` on 404 and raises on any other non-200. -/
theorem status_policy_amended {α : Type} (status : Nat) (body : List α)
    (item : α) (ident : String) :
    (partner_by_id_result ident 404 item = .ok none ∧
     offer_by_id_result ident 404 item = .ok none ∧
     user_by_id_result ident 404 item = .ok none) ∧
    (status ≠ 200 →
      get_orders_result status body = .ok [] ∧
      get_payments_result status body = .ok [] ∧
      all_partners_result status body = .ok [] ∧
      get_offers_result status body = .ok [] ∧
      all_notifications_result status body = .ok [] ∧
      all_users_result status body = .ok []) ∧
    (nearby_partners_result ident 404 body = .ok none) ∧
    (status ≠ 200 → status ≠ 404 →
      nearby_partners_result ident status body
        = .error ("Error fetching nearby partners at " ++ ident
            ++ ": Partner service returned " ++ toString status)) ∧
    (list_partner_reviews_result 404 body = .ok none) ∧
    (status ≠ 200 → status ≠ 404 →
      list_partner_reviews_result status body = .ok (some [])) ∧
    (user_order_history_result ident 404 body = .ok []) ∧
    (status ≠ 200 → status ≠ 404 →
      user_order_history_result ident status body
        = .error ("Error fetching orders for user " ++ ident
            ++ ": User service returned " ++ toString status)) := by
  refine ⟨⟨rfl, rfl, rfl⟩, ?_, rfl, ?_, rfl, ?_, rfl, ?_⟩
  · intro h
    refine ⟨?_, ?_, ?_, ?_, ?_, ?_⟩ <;>
      simp [get_orders_result, get_payments_result, all_partners_result,
        get_offers_result, all_notifications_result, all_users_result, h]
  · intro h h4
    simp [nearby_partners_result, h, h4]
  · intro h h4
    simp [list_partner_reviews_result, h, h4]
  · intro h h4
    simp [user_order_history_result, h, h4]

/-- Witness for C4's amended theorem at status 500. -/
theorem status_policy_amended_witness :
    get_orders_result (α := Nat) 500 [3] = .ok [] ∧
    list_partner_reviews_result (α := Nat) 500 [3] = .ok (some []) ∧
    partner_by_id_result "p1" 404 (7 : Nat) = .ok none := by
  have h := status_policy_amended (α := Nat) 500 [3] 7 "p1"
  exact ⟨(h.2.1 (by decide)).1, h.2.2.2.2.2.1 (by decide) (by decide), h.1.1⟩

theorem mem_dropAbsent (l : List (String × Option JVal)) (k : String) (v : JVal) :
    (k, v) ∈ dropAbsent l ↔ (k, some v) ∈ l := by
  induction l with
  | nil => simp [dropAbsent]
  | cons kv rest ih =>
    rcases kv with ⟨k', ov⟩
    cases ov with
    | none =>
      rw [dropAbsent, List.filterMap_cons]
      simp only [Option.map_none']
      rw [← dropAbsent] at *
      simp [ih]
    | some w =>
      rw [dropAbsent, List.filterMap_cons]
      simp only [Option.map_some']
      rw [← dropAbsent] at *
      constructor
      · intro h
        rcases List.mem_cons.1 h with h | h
        · injection h with h1 h2
          rw [h1, h2]
          exact List.mem_cons_self _ _
        · exact List.mem_cons_of_mem _ (ih.1 h)
      · intro h
        rcases List.mem_cons.1 h with h | h
        · injection h with h1 h2
          injection h2 with h2
          rw [h1, h2]
          exact List.mem_cons_self _ _
        · exact List.mem_cons_of_mem _ (ih.2 h)

theorem dropAbsent_eq_nil (l : List (String × Option JVal))
    (h : ∀ kv ∈ l, kv.2 = none) : dropAbsent l = [] := by
  rw [dropAbsent, List.filterMap_eq_nil_iff]
  intro kv hkv
  rw [h kv hkv]
  rfl

/-- C5: for each of `update_partner`, `update_offer` and `update_user`, a
(name, value) pair occurs in the serialized patch body exactly when the
input field of that name is present with that value — so absent fields
never appear, not even as null — and an input whose fields are all absent
serializes to the empty body. -/
theorem update_mutations_sparse_patch
    (ip : PartnerUpdateInput) (io : OfferUpdateInput) (iu : UserUpdateInput)
    (k : String) (v : JVal) :
    ((k, v) ∈ update_partner_body ip ↔ (k, some v) ∈ ip.asdict) ∧
    ((k, v) ∈ update_offer_body io ↔ (k, some v) ∈ io.asdict) ∧
    ((k, v) ∈ update_user_body iu ↔ (k, some v) ∈ iu.asdict) ∧
    ((∀ kv ∈ ip.asdict, kv.2 = none) → update_partner_body ip = []) ∧
    ((∀ kv ∈ io.asdict, kv.2 = none) → update_offer_body io = []) ∧
    ((∀ kv ∈ iu.asdict, kv.2 = none) → update_user_body iu = []) := by
  exact ⟨mem_dropAbsent _ _ _, mem_dropAbsent _ _ _, mem_dropAbsent _ _ _,
    fun h => dropAbsent_eq_nil _ h, fun h => dropAbsent_eq_nil _ h,
    fun h => dropAbsent_eq_nil _ h⟩

/-- Witness for C5 at concrete inputs: a patch with only `city` set
serializes to exactly that one field, and the all-absent partner and user
inputs serialize to the empty body. -/
theorem update_mutations_sparse_patch_witness :
    (("city", JVal.s "LJ") ∈ update_partner_body
      (PartnerUpdateInput.mk none none (some "LJ") none none none none)) ∧
    (("name", JVal.s "x") ∉ update_partner_body
      (PartnerUpdateInput.mk none none (some "LJ") none none none none)) ∧
    update_partner_body
      (PartnerUpdateInput.mk none none none none none none none) = [] ∧
    update_user_body
      (UserUpdateInput.mk none none none none none none none) = [] := by
  have h1 := update_mutations_sparse_patch
    (PartnerUpdateInput.mk none none (some "LJ") none none none none)
    (OfferUpdateInput.mk none none none none none "2024-01-01T00:00:00" none)
    (UserUpdateInput.mk none none none none none none none) "city" (JVal.s "LJ")
  have h2 := update_mutations_sparse_patch
    (PartnerUpdateInput.mk none none none none none none none)
    (OfferUpdateInput.mk none none none none none "2024-01-01T00:00:00" none)
    (UserUpdateInput.mk none none none none none none none) "name" (JVal.s "x")
  refine ⟨h1.1.2 (by decide), ?_, h2.2.2.2.1 (by decide), h2.2.2.2.2.2 (by decide)⟩
  intro hmem
  have := (update_mutations_sparse_patch
    (PartnerUpdateInput.mk none none (some "LJ") none none none none)
    (OfferUpdateInput.mk none none none none none "2024-01-01T00:00:00" none)
    (UserUpdateInput.mk none none none none none none none) "name"
    (JVal.s "x")).1.1 hmem
  revert this
  decide

/-- C6 (code evaluated at the failing inputs): `map_offer_data` leaves an
ISO-8601 string `expiry_date` as a raw string in the produced record (the
inverted `isinstance` guard skips parsing exactly when the value is text)
and raises on a native instant; and `map_order_data` leaves a string
`updated_at` as a raw string while parsing `created_at`. -/
theorem map_time_fields_bug_eval :
    map_offer_data (OfferJson.mk (TimeVal.text "2024-01-01T00:00:00Z"))
      = .ok (OfferRecord.mk (TimeVal.text "2024-01-01T00:00:00Z")) ∧
    map_offer_data (OfferJson.mk (TimeVal.inst "2024-01-01T00:00:00+00:00"))
      = .error "TypeError: replace() takes no positional string arguments" ∧
    map_order_data
        (OrderJson.mk (TimeVal.text "2024-01-01T00:00:00Z")
          (TimeVal.text "2024-01-02T00:00:00Z"))
      = OrderRecord.mk (TimeVal.inst "2024-01-01T00:00:00+00:00")
          (TimeVal.text "2024-01-02T00:00:00Z") := by
  refine ⟨rfl, rfl, ?_⟩
  show OrderRecord.mk (TimeVal.inst (replaceZ "2024-01-01T00:00:00Z")) _ = _
  rfl

theorem natDigitsAux_eq (fuel : Nat) :
    ∀ n : Nat, n ≤ fuel → natDigitsAux fuel n = Nat.digits 10 n := by
  induction fuel with
  | zero =>
    intro n hn
    have : n = 0 := Nat.le_zero.1 hn
    subst this
    simp [natDigitsAux, Nat.digits_zero]
  | succ fuel ih =>
    intro n hn
    by_cases h0 : n = 0
    · subst h0
      simp [natDigitsAux, Nat.digits_zero]
    · rw [natDigitsAux, if_neg h0,
        Nat.digits_def' (by norm_num : 1 < 10) (Nat.pos_of_ne_zero h0),
        ih (n / 10) ?_]
      have hdiv : n / 10 < n := Nat.div_lt_self (Nat.pos_of_ne_zero h0) (by norm_num)
      exact Nat.lt_succ_iff.1 (Nat.lt_of_lt_of_le hdiv hn)

theorem natDigits10_eq (n : Nat) : natDigits10 n = Nat.digits 10 n :=
  natDigitsAux_eq n n le_rfl

theorem ofDigits_replicate_zero (n : Nat) :
    Nat.ofDigits 10 (List.replicate n 0) = 0 := by
  induction n with
  | zero => rfl
  | succ m ih => simp [List.replicate_succ, Nat.ofDigits_cons, ih]

theorem coeff_reassemble (c n : Nat) :
    Nat.ofDigits 10
      ((Nat.digits 10 c ++ List.replicate n 0).take n
        ++ (Nat.digits 10 c).drop n) = c := by
  by_cases h : n ≤ (Nat.digits 10 c).length
  · rw [List.take_append_of_le_length h, List.take_append_drop,
      Nat.ofDigits_digits]
  · push_neg at h
    rw [List.drop_eq_nil_of_le (le_of_lt h), List.append_nil,
      List.take_append_eq_append_take,
      List.take_of_length_le (le_of_lt h), List.take_replicate,
      Nat.ofDigits_append, ofDigits_replicate_zero, Nat.ofDigits_digits,
      Nat.mul_zero, Nat.add_zero]

theorem litOfPyDecimal_scale (d : PyDecimal) :
    (litOfPyDecimal d).fracDigits.length = d.scale := by
  rw [litOfPyDecimal]
  simp only [List.length_take, List.length_append, List.length_replicate]
  exact Nat.min_eq_left (Nat.le_add_left _ _)

theorem pyDecimal_roundtrip (d : PyDecimal) :
    (pyDecimalOfLit (litOfPyDecimal d)).value = d.value := by
  rw [PyDecimal.value, PyDecimal.value]
  have hc : (pyDecimalOfLit (litOfPyDecimal d)).coeff = d.coeff := by
    show Nat.ofDigits 10 ((litOfPyDecimal d).fracDigits
      ++ (litOfPyDecimal d).intDigits) = d.coeff
    show Nat.ofDigits 10
      ((natDigits10 d.coeff ++ List.replicate d.scale 0).take d.scale
        ++ (natDigits10 d.coeff).drop d.scale) = d.coeff
    rw [natDigits10_eq]
    exact coeff_reassemble d.coeff d.scale
  have hs : (pyDecimalOfLit (litOfPyDecimal d)).scale = d.scale :=
    litOfPyDecimal_scale d
  have hn : (pyDecimalOfLit (litOfPyDecimal d)).neg = d.neg := rfl
  rw [hc, hs, hn]

/-- C7 counterexample: the wire literal `0.30000000000000001` (a JSON
number) does not denote `3/10`, yet `map_payment_data` maps it to the
`Decimal` `0.3`: `json.loads` first rounds it to the nearest binary64
double (the one `repr`-ed as `0.3`), so the mapped amount is not the exact
decimal of the received textual representation and a binary float
intermediate is involved. -/
theorem amount_number_precision_counterexample :
    (DecLit.mk false [0]
        [1, 0, 0, 0, 0, 0, 0, 0, 0, 0, 0, 0, 0, 0, 0, 0, 3]).value ≠ 3 / 10 ∧
    (map_payment_data (PaymentJson.mk
        (AmountVal.num (DecLit.mk false [0]
          [1, 0, 0, 0, 0, 0, 0, 0, 0, 0, 0, 0, 0, 0, 0, 0, 3]))
        (TimeVal.text "t") (TimeVal.text "t"))).amount
      = PyDecimal.mk false 3 1 ∧
    (PyDecimal.mk false 3 1).value = 3 / 10 := by
  refine ⟨?_, ?_, ?_⟩
  · have hofd : (Nat.ofDigits 10
        ([1, 0, 0, 0, 0, 0, 0, 0, 0, 0, 0, 0, 0, 0, 0, 0, 3] ++ [0]) : ℕ)
        = 30000000000000001 := by decide
    rw [DecLit.value]
    show (1 : ℚ) * ((Nat.ofDigits 10
        ([1, 0, 0, 0, 0, 0, 0, 0, 0, 0, 0, 0, 0, 0, 0, 0, 3] ++ [0]) : ℕ) : ℚ)
        / 10 ^ 17 ≠ 3 / 10
    rw [hofd]
    norm_num
  · show pyDecimalOfLit (pyStrAmount (AmountVal.num (DecLit.mk false [0]
        [1, 0, 0, 0, 0, 0, 0, 0, 0, 0, 0, 0, 0, 0, 0, 0, 3])))
      = PyDecimal.mk false 3 1
    decide
  · rw [PyDecimal.value]
    norm_num

/-- C7 amended: an `amount` received as a JSON string maps to a `Decimal`
denoting exactly the wire text's value, with no float in between, and a
JSON integer amount maps exactly through Python's arbitrary-precision
`int`; `create_order` serializes the submitted `Decimal` as its exact
decimal text, and mapping back a payload carrying that text yields exactly
the submitted value; but an `amount` received as a fractional JSON number
has already been decoded by `json.loads` into a binary64 float, and its
`Decimal` is built from that float's shortest round-trip repr — exact only
up to binary64 (`2.5` survives exactly, while `0.30000000000000001`
becomes `Decimal("0.3")`, see the counterexample). -/
theorem amount_decimal_amended (slit nlit : DecLit) (d : PyDecimal)
    (neg : Bool) (n : Nat) (ca ua : TimeVal) :
    ((map_payment_data (PaymentJson.mk (AmountVal.s slit) ca ua)).amount).value
      = slit.value ∧
    ((map_payment_data (PaymentJson.mk (AmountVal.intNum neg n) ca ua)).amount).value
      = (cond neg (-1) 1) * (n : ℚ) ∧
    (create_order_body_amount d).value = d.value ∧
    ((map_payment_data
        (PaymentJson.mk (AmountVal.s (create_order_body_amount d)) ca ua)).amount).value
      = d.value ∧
    ((map_payment_data (PaymentJson.mk (AmountVal.num nlit) ca ua)).amount).value
      = (pyStrFloat (floatOfLit nlit).1 (floatOfLit nlit).2.1
          (floatOfLit nlit).2.2).value ∧
    ((map_payment_data (PaymentJson.mk
        (AmountVal.num (DecLit.mk false [2] [5])) ca ua)).amount).value = 5 / 2 := by
  have hlit : ∀ t : DecLit, (pyDecimalOfLit t).value = t.value := by
    intro t
    rw [PyDecimal.value, DecLit.value, pyDecimalOfLit]
  refine ⟨hlit _, ?_, ?_, ?_, hlit _, ?_⟩
  · show (pyDecimalOfLit (DecLit.mk neg (natDigits10 n) [])).value
      = (cond neg (-1) 1) * (n : ℚ)
    rw [hlit, DecLit.value]
    simp only [List.nil_append, List.length_nil, pow_zero, div_one,
      natDigits10_eq, Nat.ofDigits_digits]
  · show (litOfPyDecimal d).value = d.value
    rw [← hlit (litOfPyDecimal d)]
    exact pyDecimal_roundtrip d
  · show (pyDecimalOfLit (pyStrAmount (AmountVal.s (litOfPyDecimal d)))).value = d.value
    rw [pyStrAmount]
    exact pyDecimal_roundtrip d
  · have h25 : (map_payment_data (PaymentJson.mk
        (AmountVal.num (DecLit.mk false [2] [5])) ca ua)).amount
        = PyDecimal.mk false 25 1 := by
      show pyDecimalOfLit (pyStrAmount (AmountVal.num (DecLit.mk false [2] [5])))
        = PyDecimal.mk false 25 1
      decide
    rw [h25, PyDecimal.value]
    norm_num

theorem setCookieValues_appendSetCookies (hs : List Header) (cs : List String) :
    setCookieValues (appendSetCookies hs cs) = setCookieValues hs ++ cs := by
  rw [setCookieValues, appendSetCookies, List.filter_append, List.map_append]
  congr 1
  have hfilter : (cs.map fun c => (("set-cookie" : String), c)).filter
      (fun kv => decide (lowerStr kv.1 = "set-cookie"))
      = cs.map fun c => ("set-cookie", c) := by
    apply List.filter_eq_self.2
    intro kv hkv
    rcases List.mem_map.1 hkv with ⟨c, _, rfl⟩
    show decide (lowerStr "set-cookie" = "set-cookie") = true
    decide
  rw [hfilter, List.map_map]
  simp

/-- C8: whenever `login`, `signup` or `logout` completes successfully, the
gateway response's `set-cookie` occurrences are its prior ones followed by
exactly the backend auth response's `set-cookie` values, each appended as
its own occurrence — in particular, a response sink with no prior cookies
ends up with exactly the backend's N cookies, unmerged. -/
theorem auth_resolvers_relay_set_cookie (respHeaders : List Header)
    (auth : AuthResponse) (outHeaders : List Header) (msg : String) :
    (login_resolver respHeaders auth = .ok (outHeaders, msg) →
      setCookieValues outHeaders
        = setCookieValues respHeaders ++ get_list auth.headers "set-cookie") ∧
    (signup_resolver respHeaders auth = .ok (outHeaders, msg) →
      setCookieValues outHeaders
        = setCookieValues respHeaders ++ get_list auth.headers "set-cookie") ∧
    (setCookieValues (logout_resolver respHeaders auth).1
      = setCookieValues respHeaders ++ get_list auth.headers "set-cookie") := by
  refine ⟨?_, ?_, setCookieValues_appendSetCookies _ _⟩
  · intro h
    rw [login_resolver] at h
    by_cases hs : auth.status = 200
    · rw [if_neg (by simp [hs])] at h
      injection h with h
      have := congrArg Prod.fst h
      simp only at this
      rw [← this, setCookieValues_appendSetCookies]
    · rw [if_pos (by simp [hs])] at h
      exact absurd h (by simp)
  · intro h
    rw [signup_resolver] at h
    by_cases hs : auth.status = 200
    · rw [if_neg (by simp [hs])] at h
      injection h with h
      have := congrArg Prod.fst h
      simp only at this
      rw [← this, setCookieValues_appendSetCookies]
    · rw [if_pos (by simp [hs])] at h
      exact absurd h (by simp)

/-- Witness for C8: an auth backend 200 with two `Set-Cookie` headers makes
`login` put exactly those two cookies, in order, on an initially clean
gateway response. -/
theorem auth_resolvers_relay_set_cookie_witness :
    login_resolver []
        (AuthResponse.mk 200 [("Set-Cookie", "sid=1"), ("content-type", "a"),
          ("Set-Cookie", "ref=2")] none)
      = .ok ([("set-cookie", "sid=1"), ("set-cookie", "ref=2")], "ok") ∧
    setCookieValues [("set-cookie", "sid=1"), ("set-cookie", "ref=2")]
      = ["sid=1", "ref=2"] := by
  have h := auth_resolvers_relay_set_cookie []
    (AuthResponse.mk 200 [("Set-Cookie", "sid=1"), ("content-type", "a"),
      ("Set-Cookie", "ref=2")] none)
    [("set-cookie", "sid=1"), ("set-cookie", "ref=2")] "ok"
  refine ⟨?_, ?_⟩
  · rfl
  · have := h.1 (by rfl)
    rw [this]
    rfl

/-- C9 (code evaluated at the failing inputs): on a backend failure the
error raised by `mark_read` is labelled `"Payment confirmation failed"`
although the failing upstream is the notification service, and the error
raised by `create_review` is labelled `"Partner creation failed"` although
the failing upstream is the review service; both do carry the backend body
text. -/
theorem resolver_error_message_bug_eval :
    mark_read_result (α := Unit) 500 "boom" ()
      = .error "Payment confirmation failed: boom" ∧
    create_review_result (α := Unit) 500 "boom" ()
      = .error "Partner creation failed: boom" := by
  exact ⟨rfl, rfl⟩

/-- C10: `delete_partner` and `delete_offer` return `True` exactly on a
backend 204; every other status — 200 included — raises an error carrying
the backend body text; no status ever yields `False`. -/
theorem delete_mutations_status_policy (status : Nat) (text : String) :
    (delete_partner_result status text = .ok true ↔ status = 204) ∧
    (status ≠ 204 → delete_partner_result status text
      = .error ("Partner not successfully deleted: " ++ text)) ∧
    (delete_partner_result status text ≠ .ok false) ∧
    (delete_offer_result status text = .ok true ↔ status = 204) ∧
    (status ≠ 204 → delete_offer_result status text
      = .error ("Offer not successfully deleted: " ++ text)) ∧
    (delete_offer_result status text ≠ .ok false) := by
  by_cases h : status = 204
  · subst h
    refine ⟨by simp [delete_partner_result], by simp, ?_, by simp [delete_offer_result],
      by simp, ?_⟩ <;> simp [delete_partner_result, delete_offer_result]
  · refine ⟨?_, ?_, ?_, ?_, ?_, ?_⟩ <;>
      simp [delete_partner_result, delete_offer_result, h]

/-- Witness for C10: a backend 200 on `delete_partner` raises rather than
returning a boolean, and 204 returns `True`. -/
theorem delete_mutations_status_policy_witness :
    delete_partner_result 200 "unexpected"
      = .error "Partner not successfully deleted: unexpected" ∧
    delete_offer_result 204 "" = .ok true := by
  have h200 := delete_mutations_status_policy 200 "unexpected"
  have h204 := delete_mutations_status_policy 204 ""
  exact ⟨h200.2.1 (by decide), (h204.2.2.2.1).2 rfl⟩

end ApiGateway
